import Mathlib

/-!
Shallow embedding of the relay-routing and session-state engine of
`src/bot.py` (a Telegram greeting/relay bot).  The source file contains
three near-identical revisions of the program concatenated; the first
revision (lines 1-277) is the one whose line numbers the specification
cites throughout, and it is the code embedded here.

Embedding conventions:
* `time.time()` values are modelled as rationals (`ℚ`); the rate-limit
  threshold `1.2` is the exact rational `6/5`.
* `context.user_data` (per-conversation state) is `ConvState`;
  `context.bot_data` (process-wide state) is `BotData`.
* The python dict `forwarded_map` is an association list with python
  assignment semantics (`d[k] = v` overwrites an existing binding).
* Transport and generator calls that may fail are oracles in `Env`:
  `forward_ok = some id` means `bot.forward_message` succeeded returning
  message id `id`, `none` means it raised (the code swallows that);
  `complete p = some t` means the Gemini call for prompt `p` produced a
  response with non-empty `.text` equal to `t`, `none` means it failed,
  raised, or returned empty text (the code substitutes a fallback).
* An uncaught python exception inside `handle_message` is the outcome
  `Outcome.crash` (the only such point reachable in the embedded code is
  the `IndexError` from `text.lower().split()[0]` on tokenless text).
-/

namespace FixedBot

abbrev MsgId := Nat
abbrev ChatId := Nat

/-!
Python string primitives, implemented by structural recursion over the
character list `s.data` (the core `String` functions recurse on byte
positions, which the kernel cannot reduce; these versions are
kernel-computable and agree with them on every input).
-/

/-- Python slice `s[:n]`. -/
def pyTake (s : String) (n : Nat) : String := String.mk (s.data.take n)

/-- Python `s.lower()` (ASCII case map; the greeting vocabulary and the
Bengali block are unaffected by the non-ASCII differences). -/
def pyLower (s : String) : String := String.mk (s.data.map Char.toLower)

/-- Python `s.strip()`: drop leading and trailing whitespace. -/
def pyStrip (s : String) : String :=
  String.mk
    (((s.data.dropWhile Char.isWhitespace).reverse.dropWhile
        Char.isWhitespace).reverse)

/-- `detect_language` (bot.py:85-88): "bengali" iff some character lies in
the Bengali unicode block U+0980..U+09FF, else "english". -/
def detect_language (text : String) : String :=
  if text.data.any
      (fun c => decide (0x0980 ≤ c.toNat) && decide (c.toNat ≤ 0x09FF))
  then "bengali" else "english"

def pySplitAux : List Char → List Char → List String
  | [], cur => if cur.isEmpty then [] else [String.mk cur.reverse]
  | c :: rest, cur =>
    if c.isWhitespace then
      if cur.isEmpty then pySplitAux rest []
      else String.mk cur.reverse :: pySplitAux rest []
    else pySplitAux rest (c :: cur)

/-- Python `s.split()` with no separator: split on whitespace runs,
dropping empty pieces. -/
def pySplit (s : String) : List String := pySplitAux s.data []

/-- First-match lookup on the association-list model of a python dict. -/
def pyLookup : List (MsgId × ChatId) → MsgId → Option ChatId
  | [], _ => none
  | (a, b) :: t, k => if k = a then some b else pyLookup t k

/-- Python dict read `d.get(k)` on the association list model. -/
def pyDictGet (m : List (MsgId × ChatId)) (k : MsgId) : Option ChatId :=
  pyLookup m k

/-- Replace the value of every pair whose key is `k`. -/
def pyUpdate : List (MsgId × ChatId) → MsgId → ChatId → List (MsgId × ChatId)
  | [], _, _ => []
  | (a, b) :: t, k, v =>
    if a = k then (k, v) :: pyUpdate t k v else (a, b) :: pyUpdate t k v

/-- Python dict assignment `d[k] = v`: overwrite the binding when the key
is present, otherwise append the new pair (python dicts keep insertion
order). -/
def pyDictSet (m : List (MsgId × ChatId)) (k : MsgId) (v : ChatId) :
    List (MsgId × ChatId) :=
  if (pyLookup m k).isSome then pyUpdate m k v else m ++ [(k, v)]

/-- Per-conversation state stored in `context.user_data`:
`last_time` (bot.py:154, default 0) and `busy_shown` (bot.py:251,
default false). -/
structure ConvState where
  last_time : ℚ
  busy_shown : Bool
deriving DecidableEq

def ConvState.init : ConvState := ⟨0, false⟩

/-- The two non-`None` values ever stored in
`bot_data["admin_status_changed"]` (bot.py:181,188). -/
inductive PendingT where
  | became_available
  | became_away
deriving DecidableEq

/-- Process-wide state stored in `context.bot_data`:
`admin_available` (default false), `admin_status_changed` (default
`None`), `forwarded_map` (default `{}`). -/
structure BotData where
  admin_available : Bool
  admin_status_changed : Option PendingT
  forwarded_map : List (MsgId × ChatId)
deriving DecidableEq

def BotData.init : BotData := ⟨false, none, []⟩

/-- Failure oracles for the external collaborators (see header). -/
structure Env where
  forward_ok : Option MsgId
  complete : String → Option String

/-- The fallback literal used whenever the Gemini call fails
(bot.py:124,134,144,146). -/
def FALLBACK : String := "Message sent ✅"

/-- `safe_ask_gemini ∘ ask_gemini` (bot.py:126-148): on a successful call
with non-empty text, that text stripped; on any failure the fallback
literal (`random.choice` over the one-element fallback list). -/
def ask_gemini (env : Env) (prompt : String) : String :=
  match env.complete prompt with
  | some t => pyStrip t
  | none => FALLBACK

/-- The prompt `smart_welcome` builds (bot.py:167). -/
def smart_welcome_prompt (name lang : String) : String :=
  "Make a short friendly welcome message for " ++ name ++ ". Language: "
    ++ lang ++ ". Max 1 emoji."

/-- `smart_welcome` (bot.py:166-169): ask Gemini (safely) and strip. -/
def smart_welcome (env : Env) (name lang : String) : String :=
  pyStrip (ask_gemini env (smart_welcome_prompt name lang))

/-- `user_spam` (bot.py:152-158), state passed explicitly: given `now`
and the stored `last_time`, return (is-spam, new `last_time`). Spam iff
`now - last < 1.2`; only the non-spam branch writes `last_time`. -/
def user_spam (now last : ℚ) : Bool × ℚ :=
  if now - last < 6/5 then (true, last) else (false, now)

/-- The greeting vocabulary (bot.py:226). -/
def greetings : List String :=
  ["hi", "hello", "hey", "hlo", "hola", "namaste", "salam", "assalamualaikum"]

/-- Observable outcome of one `handle_message` run.  Each constructor is
one `return` point of bot.py:218-255; the transient typing animation,
which every non-returning branch shows, is not an outcome of its own.
`availableNotice` is the text "🟢 Admin available." (bot.py:242),
`awayNotice` and `busyNotice` are both the literal
"🔴 Admin busy.\nMessage sent ✅\n⏳ Reply within 48 hours."
(bot.py:245,253) sent from the transition branch resp. the first-contact
branch, `sentTemp` is the auto-deleted "Message sent ✅" confirmation,
and `crash` is an uncaught python exception. -/
inductive Outcome where
  | ignoredAdmin
  | blocked
  | greetingReply (text : String)
  | availableNotice
  | awayNotice
  | sentTemp
  | busyNotice
  | crash
deriving DecidableEq

structure HandleResult where
  conv : ConvState
  bot : BotData
  out : Outcome
deriving DecidableEq

/-- The status-notification and first-contact tail of `handle_message`
(bot.py:238-255): consume a pending `admin_status_changed` transition if
any, else branch on `admin_available` and the per-conversation
`busy_shown` flag. -/
def relay_reply (conv : ConvState) (bot : BotData) : HandleResult :=
  match bot.admin_status_changed with
  | some .became_available =>
      ⟨conv, ⟨bot.admin_available, none, bot.forwarded_map⟩,
        .availableNotice⟩
  | some .became_away =>
      ⟨conv, ⟨bot.admin_available, none, bot.forwarded_map⟩,
        .awayNotice⟩
  | none =>
      if bot.admin_available then ⟨conv, bot, .sentTemp⟩
      else if !conv.busy_shown then
        ⟨⟨conv.last_time, true⟩, bot, .busyNotice⟩
      else ⟨conv, bot, .sentTemp⟩

/-- The forward-and-record step (bot.py:231-234): on transport success
the relayed id is bound to the originating chat in `forwarded_map`; on
transport failure the exception is swallowed and nothing changes. -/
def forward_record (env : Env) (chat : ChatId) (bot : BotData) : BotData :=
  match env.forward_ok with
  | some fid =>
      ⟨bot.admin_available, bot.admin_status_changed,
        pyDictSet bot.forwarded_map fid chat⟩
  | none => bot

/-- The body of `handle_message` after its two gates (bot.py:222-255),
state passed explicitly.  Mirrors the source line by line:
222-224 truncate to 500 chars, detect language, read name;
226-229 greeting classification on the first whitespace token of the
lowercased text — `text.lower().split()[0]` raises `IndexError` when the
text has no token, hence `crash`; 231-234 `forward_record`;
238-255 `relay_reply`. -/
def handle_body (env : Env) (chat : ChatId) (name text : String)
    (conv : ConvState) (bot : BotData) : HandleResult :=
  let t := pyTake text 500
  let lang := detect_language t
  match pySplit (pyLower t) with
  | [] => ⟨conv, bot, .crash⟩
  | tok :: _ =>
    if greetings.contains tok then
      ⟨conv, bot, .greetingReply (smart_welcome env name lang)⟩
    else
      relay_reply conv (forward_record env chat bot)

/-- The two gates of `handle_message` (bot.py:219-220): the admin
short-circuit and the `user_spam` silent drop; on passing both, the
updated `last_time` is stored and `handle_body` runs. -/
def handle_message (env : Env) (senderIsAdmin : Bool) (chat : ChatId)
    (name text : String) (now : ℚ) (conv : ConvState) (bot : BotData) :
    HandleResult :=
  if senderIsAdmin then ⟨conv, bot, .ignoredAdmin⟩
  else if (user_spam now conv.last_time).1 then ⟨conv, bot, .blocked⟩
  else handle_body env chat name text
    ⟨(user_spam now conv.last_time).2, conv.busy_shown⟩ bot

/-- Observable outcome of one `admin_reply_handler` run
(bot.py:191-206). -/
inductive AdminReplyOutcome where
  | ignored
  | userNotFound
  | delivered (chat : ChatId)
  | sendFailed
deriving DecidableEq

/-- `admin_reply_handler` (bot.py:191-206), state passed explicitly.
`replyTo` is `update.message.reply_to_message.message_id` when the
inbound event is a reply, else `none`; `deliverOk` is the transport
oracle for `bot.send_message`.  The source guards with python truthiness
(`if not user_chat`), so a stored chat id 0 is also treated as not
found. -/
def admin_reply_handler (senderIsAdmin : Bool) (replyTo : Option MsgId)
    (deliverOk : Bool) (bot : BotData) : BotData × AdminReplyOutcome :=
  if !senderIsAdmin then (bot, .ignored)
  else
    match replyTo with
    | none => (bot, .ignored)
    | some fid =>
      match pyDictGet bot.forwarded_map fid with
      | none => (bot, .userNotFound)
      | some chat =>
        if chat = 0 then (bot, .userNotFound)
        else if deliverOk then (bot, .delivered chat)
        else (bot, .sendFailed)

/-- `available_cmd` (bot.py:177-182) and `away_cmd` (bot.py:184-189),
state passed explicitly; the boolean result is whether the state-changing
branch ran (non-admins get only "❌ Not allowed."). -/
def available_cmd (senderIsAdmin : Bool) (bot : BotData) : BotData × Bool :=
  if !senderIsAdmin then (bot, false)
  else (⟨true, some .became_available, bot.forwarded_map⟩, true)

def away_cmd (senderIsAdmin : Bool) (bot : BotData) : BotData × Bool :=
  if !senderIsAdmin then (bot, false)
  else (⟨false, some .became_away, bot.forwarded_map⟩, true)

/-! ## Event system for multi-message runs -/

/-- One inbound user text message with its arrival time and the
collaborator oracles in force while it is handled. -/
structure UserMsg where
  chat : ChatId
  name : String
  text : String
  now : ℚ
  env : Env

/-- Global state: the shared `bot_data` plus every conversation's
`user_data`. -/
structure GState where
  bot : BotData
  convs : ChatId → ConvState

def stepUser (s : GState) (m : UserMsg) : GState × Outcome :=
  let r := handle_message m.env false m.chat m.name m.text m.now
      (s.convs m.chat) s.bot
  (⟨r.bot, fun c => if c = m.chat then r.conv else s.convs c⟩, r.out)

def runUsers (s : GState) : List UserMsg → GState × List Outcome
  | [] => (s, [])
  | m :: ms =>
    let p := stepUser s m
    let q := runUsers p.1 ms
    (q.1, p.2 :: q.2)

/-- The two presence-transition notices (consumption of the one-shot
`admin_status_changed` flag). -/
def Outcome.isTransitionNotice : Outcome → Bool
  | .availableNotice => true
  | .awayNotice => true
  | _ => false

/-! ## Basic lemmas -/

theorem user_spam_blocked {now last : ℚ} (h : now - last < 6/5) :
    user_spam now last = (true, last) := by
  unfold user_spam; rw [if_pos h]

theorem user_spam_allowed {now last : ℚ} (h : ¬(now - last < 6/5)) :
    user_spam now last = (false, now) := by
  unfold user_spam; rw [if_neg h]

theorem handle_message_spam (env : Env) (chat : ChatId) (name text : String)
    (now : ℚ) (conv : ConvState) (bot : BotData)
    (h : now - conv.last_time < 6/5) :
    handle_message env false chat name text now conv bot
      = ⟨conv, bot, .blocked⟩ := by
  simp [handle_message, user_spam_blocked h]

theorem handle_message_not_spam (env : Env) (chat : ChatId)
    (name text : String) (now : ℚ) (conv : ConvState) (bot : BotData)
    (h : ¬(now - conv.last_time < 6/5)) :
    handle_message env false chat name text now conv bot
      = handle_body env chat name text ⟨now, conv.busy_shown⟩ bot := by
  simp [handle_message, user_spam_allowed h]

theorem pyLookup_update (m : List (MsgId × ChatId)) (k : MsgId)
    (v : ChatId) (k' : MsgId) :
    pyLookup (pyUpdate m k v) k'
      = if k' = k then (if (pyLookup m k).isSome then some v else none)
        else pyLookup m k' := by
  induction m with
  | nil => simp [pyLookup, pyUpdate]
  | cons p t ih =>
    obtain ⟨a, b⟩ := p
    by_cases hak : a = k
    · subst hak
      by_cases hk' : k' = a <;> simp [pyLookup, pyUpdate, hk', ih]
    · by_cases hk' : k' = k
      · subst hk'
        simp [pyLookup, pyUpdate, hak, Ne.symm hak, ih]
      · by_cases hk'a : k' = a <;>
          simp [pyLookup, pyUpdate, hak, hk', hk'a, ih]

theorem pyLookup_append (m l : List (MsgId × ChatId)) (a : MsgId) :
    pyLookup (m ++ l) a
      = if (pyLookup m a).isSome then pyLookup m a else pyLookup l a := by
  induction m with
  | nil => simp [pyLookup]
  | cons p t ih =>
    obtain ⟨x, y⟩ := p
    by_cases hxa : a = x <;> simp [pyLookup, hxa, ih]

theorem pyDictGet_set (m : List (MsgId × ChatId)) (k : MsgId) (v : ChatId)
    (k' : MsgId) :
    pyDictGet (pyDictSet m k v) k'
      = if k' = k then some v else pyDictGet m k' := by
  unfold pyDictGet pyDictSet
  by_cases hs : (pyLookup m k).isSome
  · simp [hs, pyLookup_update]
  · rw [if_neg hs, pyLookup_append]
    by_cases hk' : k' = k
    · subst hk'
      have : pyLookup m k' = none := Option.not_isSome_iff_eq_none.mp hs
      simp [this, pyLookup]
    · by_cases hm : (pyLookup m k').isSome
      · simp [hm, hk']
      · have : pyLookup m k' = none := Option.not_isSome_iff_eq_none.mp hm
        simp [this, hk', pyLookup]

theorem handle_body_tokenless (env : Env) (chat : ChatId)
    (name text : String) (conv : ConvState) (bot : BotData)
    (h : pySplit (pyLower (pyTake text 500)) = []) :
    handle_body env chat name text conv bot = ⟨conv, bot, .crash⟩ := by
  simp only [handle_body]
  rw [h]

theorem handle_body_greeting (env : Env) (chat : ChatId)
    (name text : String) (conv : ConvState) (bot : BotData)
    (tok : String) (rest : List String)
    (htoks : pySplit (pyLower (pyTake text 500)) = tok :: rest)
    (hg : greetings.contains tok = true) :
    handle_body env chat name text conv bot
      = ⟨conv, bot, .greetingReply (smart_welcome env name
          (detect_language (pyTake text 500)))⟩ := by
  simp only [handle_body]
  rw [htoks]
  dsimp only
  rw [if_pos hg]

theorem handle_body_relay (env : Env) (chat : ChatId)
    (name text : String) (conv : ConvState) (bot : BotData)
    (tok : String) (rest : List String)
    (htoks : pySplit (pyLower (pyTake text 500)) = tok :: rest)
    (hng : greetings.contains tok = false) :
    handle_body env chat name text conv bot
      = relay_reply conv (forward_record env chat bot) := by
  simp only [handle_body]
  rw [htoks]
  dsimp only
  rw [if_neg (by rw [hng]; simp)]

theorem relay_reply_map (conv : ConvState) (bot : BotData) :
    (relay_reply conv bot).bot.forwarded_map = bot.forwarded_map := by
  rcases bot with ⟨av, sc, mp⟩
  rcases sc with _ | p
  · unfold relay_reply
    dsimp only
    split_ifs <;> rfl
  · cases p <;> rfl

theorem relay_reply_not_greeting (conv : ConvState) (bot : BotData)
    (g : String) :
    (relay_reply conv bot).out ≠ Outcome.greetingReply g := by
  rcases bot with ⟨av, sc, mp⟩
  rcases sc with _ | p
  · unfold relay_reply
    dsimp only
    split_ifs <;> simp
  · cases p <;> simp [relay_reply]

theorem relay_reply_pending (conv : ConvState) (bot : BotData) :
    ((relay_reply conv bot).out.isTransitionNotice = true →
        (relay_reply conv bot).bot.admin_status_changed = none)
    ∧ (bot.admin_status_changed = none →
        (relay_reply conv bot).out.isTransitionNotice = false
        ∧ (relay_reply conv bot).bot.admin_status_changed = none) := by
  rcases bot with ⟨av, sc, mp⟩
  rcases sc with _ | p
  · unfold relay_reply
    dsimp only
    split_ifs <;> simp [Outcome.isTransitionNotice]
  · cases p <;> simp [relay_reply, Outcome.isTransitionNotice]

theorem forward_record_pending (env : Env) (chat : ChatId) (bot : BotData) :
    (forward_record env chat bot).admin_status_changed
      = bot.admin_status_changed := by
  unfold forward_record
  cases env.forward_ok <;> simp

theorem handle_message_pending (env : Env) (adm : Bool) (chat : ChatId)
    (name text : String) (now : ℚ) (conv : ConvState) (bot : BotData) :
    ((handle_message env adm chat name text now conv
          bot).out.isTransitionNotice = true →
        (handle_message env adm chat name text now conv
          bot).bot.admin_status_changed = none)
    ∧ (bot.admin_status_changed = none →
        (handle_message env adm chat name text now conv
          bot).out.isTransitionNotice = false
        ∧ (handle_message env adm chat name text now conv
          bot).bot.admin_status_changed = none) := by
  unfold handle_message
  split_ifs with h1 h2
  · simp [Outcome.isTransitionNotice]
  · simp [Outcome.isTransitionNotice]
  · rcases htoks : pySplit (pyLower (pyTake text 500)) with _ | ⟨tok, rest⟩
    · rw [handle_body_tokenless env chat name text _ bot htoks]
      simp [Outcome.isTransitionNotice]
    · by_cases hg : greetings.contains tok = true
      · rw [handle_body_greeting env chat name text _ bot tok rest htoks hg]
        simp [Outcome.isTransitionNotice]
      · rw [handle_body_relay env chat name text _ bot tok rest htoks
          (by simpa using hg)]
        have h := relay_reply_pending
          ⟨(user_spam now conv.last_time).2, conv.busy_shown⟩
          (forward_record env chat bot)
        exact ⟨h.1, fun hp => h.2 (by rw [forward_record_pending, hp])⟩

theorem stepUser_pending (s : GState) (m : UserMsg) :
    ((stepUser s m).2.isTransitionNotice = true →
        (stepUser s m).1.bot.admin_status_changed = none)
    ∧ (s.bot.admin_status_changed = none →
        (stepUser s m).2.isTransitionNotice = false
        ∧ (stepUser s m).1.bot.admin_status_changed = none) := by
  exact handle_message_pending m.env false m.chat m.name m.text m.now
    (s.convs m.chat) s.bot

theorem runUsers_pending (s : GState) (ms : List UserMsg) :
    (s.bot.admin_status_changed = none →
        ((runUsers s ms).2.filter Outcome.isTransitionNotice).length = 0
        ∧ (runUsers s ms).1.bot.admin_status_changed = none)
    ∧ ((runUsers s ms).2.filter Outcome.isTransitionNotice).length ≤ 1 := by
  induction ms generalizing s with
  | nil => simp [runUsers]
  | cons m ms ih =>
    have hstep := stepUser_pending s m
    have ihp := ih (stepUser s m).1
    have hrun : runUsers s (m :: ms)
        = ((runUsers (stepUser s m).1 ms).1,
            (stepUser s m).2 :: (runUsers (stepUser s m).1 ms).2) := rfl
    rw [hrun]
    constructor
    · intro h0
      obtain ⟨hnf, hnone⟩ := hstep.2 h0
      obtain ⟨hlen, hfin⟩ := ihp.1 hnone
      exact ⟨by simp [List.filter_cons, hnf, hlen], hfin⟩
    · by_cases h0 : s.bot.admin_status_changed = none
      · obtain ⟨hnf, hnone⟩ := hstep.2 h0
        obtain ⟨hlen, _⟩ := ihp.1 hnone
        simp [List.filter_cons, hnf, hlen]
      · by_cases ht : (stepUser s m).2.isTransitionNotice = true
        · have hnone := hstep.1 ht
          obtain ⟨hlen, _⟩ := ihp.1 hnone
          simp [List.filter_cons, ht, hlen]
        · have hle := ihp.2
          simp only [List.filter_cons]
          rw [if_neg (by simpa using ht)]
          exact hle

/-! ## Concrete fixtures for witnesses and counterexamples -/

/-- A run in which the forward succeeds (relayed id 41) and every Gemini
call fails, so the fallback literal is used. -/
def envRec : Env := ⟨some 41, fun _ => none⟩

/-- 501-character texts agreeing on their first 500 characters. -/
def longA : String := String.mk (List.replicate 500 'a' ++ ['b'])

def longB : String := String.mk (List.replicate 500 'a' ++ ['c'])

/-! ## Claims -/

/-- C2: the rate limiter blocks exactly when `now - last_time < 1.2`,
leaving `last_time` unchanged, and otherwise allows, setting
`last_time := now`; a blocked inbound message leaves all state unchanged
and produces no outbound action at all. -/
theorem C2_rate_limit (env : Env) (chat : ChatId) (name text : String)
    (now : ℚ) (conv : ConvState) (bot : BotData) :
    (user_spam now conv.last_time).1 = decide (now - conv.last_time < 6/5)
    ∧ (user_spam now conv.last_time).2
        = (if now - conv.last_time < 6/5 then conv.last_time else now)
    ∧ (now - conv.last_time < 6/5 →
        handle_message env false chat name text now conv bot
          = ⟨conv, bot, Outcome.blocked⟩) := by
  refine ⟨?_, ?_, fun h => handle_message_spam env chat name text now conv bot h⟩
  · unfold user_spam
    by_cases h : now - conv.last_time < 6/5 <;> simp [h]
  · unfold user_spam
    by_cases h : now - conv.last_time < 6/5 <;> simp [h]

theorem C2_rate_limit_witness :
    (1 : ℚ) - ConvState.init.last_time < 6/5
    ∧ handle_message envRec false 7 "u" "hello" 1 ConvState.init BotData.init
        = ⟨ConvState.init, BotData.init, Outcome.blocked⟩ := by
  have h : (1 : ℚ) - ConvState.init.last_time < 6/5 := by
    norm_num [ConvState.init]
  exact ⟨h, (C2_rate_limit envRec 7 "u" "hello" 1 ConvState.init
    BotData.init).2.2 h⟩

/-- C7 counterexample: recording under an already-present relayed id does
not fail and does not keep the old binding — python dict assignment
silently overwrites, so resolving yields the new conversation id, not
the recorded-first one. -/
theorem C7_duplicate_overwrites :
    pyDictGet (pyDictSet (pyDictSet [] 41 7) 41 9) 41 = some 9
    ∧ pyDictGet (pyDictSet (pyDictSet [] 41 7) 41 9) 41 ≠ some 7 := by
  exact ⟨by decide, by decide⟩

/-- C7 amended: recording under a relayed id replaces any existing
binding with the new conversation id (last-writer-wins, no error signal)
and leaves every other id's binding unchanged. -/
theorem C7_record_replaces (m : List (MsgId × ChatId)) (k : MsgId)
    (v : ChatId) (k' : MsgId) :
    pyDictGet (pyDictSet m k v) k'
      = if k' = k then some v else pyDictGet m k' :=
  pyDictGet_set m k v k'

/-- C8: an operator reply whose replied-to id is absent from the
correlation map yields only the operator-directed "User not found"
notice, changes no state, and attempts no delivery (the result does not
depend on the delivery oracle `deliverOk`, so no transport call to any
user is made). -/
theorem C8_unknown_reply_rejected (bot : BotData) (fid : MsgId)
    (deliverOk : Bool) (h : pyDictGet bot.forwarded_map fid = none) :
    admin_reply_handler true (some fid) deliverOk bot
      = (bot, AdminReplyOutcome.userNotFound) := by
  simp [admin_reply_handler, h]

theorem C8_unknown_reply_rejected_witness :
    pyDictGet BotData.init.forwarded_map 5 = none
    ∧ admin_reply_handler true (some 5) true BotData.init
        = (BotData.init, AdminReplyOutcome.userNotFound) :=
  ⟨rfl, C8_unknown_reply_rejected BotData.init 5 true rfl⟩

/-- C9 (code bug): contrary to the spec's requirement that every branch
of the user-message path terminate with a reply or swallowed error, a
whitespace-only message reaches `text.lower().split()[0]` (bot.py:227)
with an empty token list and raises an uncaught `IndexError`.  Evaluated
here at the failing input " " (not rate-limited, all oracles benign). -/
theorem C9_whitespace_uncaught :
    (handle_message envRec false 7 "u" " " 2 ConvState.init
        BotData.init).out = Outcome.crash := by
  rw [handle_message_not_spam envRec 7 "u" " " 2 ConvState.init BotData.init
    (by norm_num [ConvState.init])]
  rfl

/-- C10: the user-message handler depends on the message text only
through its first 500 characters — two texts agreeing there produce
identical classification, language detection, reply branch and state
updates, for every environment and state. -/
theorem C10_truncation (env : Env) (adm : Bool) (chat : ChatId)
    (name t1 t2 : String) (now : ℚ) (conv : ConvState) (bot : BotData)
    (h : pyTake t1 500 = pyTake t2 500) :
    handle_message env adm chat name t1 now conv bot
      = handle_message env adm chat name t2 now conv bot := by
  unfold handle_message handle_body
  rw [h]

set_option maxRecDepth 4000 in
theorem C10_truncation_witness :
    pyTake longA 500 = pyTake longB 500
    ∧ handle_message envRec false 7 "u" longA 2 ConvState.init BotData.init
        = handle_message envRec false 7 "u" longB 2 ConvState.init
            BotData.init := by
  have key : ∀ c : Char,
      (List.replicate 500 'a' ++ [c]).take 500 = List.replicate 500 'a' := by
    intro c
    conv_lhs =>
      rw [show (500 : Nat) = (List.replicate 500 'a').length from
        (List.length_replicate 500 'a').symm]
    exact List.take_left _ _
  have h : pyTake longA 500 = pyTake longB 500 := by
    show String.mk ((List.replicate 500 'a' ++ ['b']).take 500)
        = String.mk ((List.replicate 500 'a' ++ ['c']).take 500)
    rw [key 'b', key 'c']
  exact ⟨h, C10_truncation envRec false 7 "u" longA longB 2 ConvState.init
    BotData.init h⟩

/-- C1: for a non-rate-limited, non-greeting user message whose forward
succeeded with relayed id `fid`, the correlation map of the resulting
state resolves `fid` to exactly the originating chat id, and an operator
reply to that relayed message is delivered to that chat. -/
theorem C1_record_resolve_roundtrip (env : Env) (chat : ChatId)
    (name text : String) (now : ℚ) (conv : ConvState) (bot : BotData)
    (fid : MsgId) (tok : String) (rest : List String)
    (hns : ¬(now - conv.last_time < 6/5))
    (htoks : pySplit (pyLower (pyTake text 500)) = tok :: rest)
    (hng : greetings.contains tok = false)
    (hfwd : env.forward_ok = some fid)
    (hchat : chat ≠ 0) :
    pyDictGet (handle_message env false chat name text now conv
        bot).bot.forwarded_map fid = some chat
    ∧ admin_reply_handler true (some fid) true
        (handle_message env false chat name text now conv bot).bot
      = ((handle_message env false chat name text now conv bot).bot,
          AdminReplyOutcome.delivered chat) := by
  rw [handle_message_not_spam env chat name text now conv bot hns,
    handle_body_relay env chat name text _ bot tok rest htoks hng]
  have hmap : (relay_reply ⟨now, conv.busy_shown⟩
        (forward_record env chat bot)).bot.forwarded_map
      = pyDictSet bot.forwarded_map fid chat := by
    rw [relay_reply_map]
    unfold forward_record
    rw [hfwd]
  have hres : pyDictGet (relay_reply ⟨now, conv.busy_shown⟩
        (forward_record env chat bot)).bot.forwarded_map fid = some chat := by
    rw [hmap, pyDictGet_set]
    simp
  refine ⟨hres, ?_⟩
  simp [admin_reply_handler, hres, hchat]

theorem C1_record_resolve_roundtrip_witness :
    (¬((2 : ℚ) - ConvState.init.last_time < 6/5))
    ∧ pySplit (pyLower (pyTake "need help" 500)) = ["need", "help"]
    ∧ greetings.contains "need" = false
    ∧ envRec.forward_ok = some 41
    ∧ pyDictGet (handle_message envRec false 7 "u" "need help" 2
        ConvState.init BotData.init).bot.forwarded_map 41 = some 7
    ∧ admin_reply_handler true (some 41) true
        (handle_message envRec false 7 "u" "need help" 2 ConvState.init
          BotData.init).bot
      = ((handle_message envRec false 7 "u" "need help" 2 ConvState.init
          BotData.init).bot, AdminReplyOutcome.delivered 7) := by
  have hns : ¬((2 : ℚ) - ConvState.init.last_time < 6/5) := by
    norm_num [ConvState.init]
  have h := C1_record_resolve_roundtrip envRec 7 "u" "need help" 2
    ConvState.init BotData.init 41 "need" ["help"] hns rfl rfl rfl
    (by decide)
  exact ⟨hns, rfl, rfl, rfl, h.1, h.2⟩

/-- C3: a user message is answered with a generated greeting exactly when
the first whitespace token of its lowercased (truncated) text is in the
fixed greeting vocabulary; in that case the reply is the generated
welcome for the detected language, the process-wide state (so in
particular the correlation map) is untouched and nothing is forwarded,
and a failing generator is masked by the fixed fallback literal. -/
theorem C3_greeting_classification (env : Env) (chat : ChatId)
    (name text : String) (now : ℚ) (conv : ConvState) (bot : BotData)
    (hns : ¬(now - conv.last_time < 6/5)) :
    ((∃ g, (handle_message env false chat name text now conv bot).out
        = Outcome.greetingReply g)
      ↔ ∃ tok rest, pySplit (pyLower (pyTake text 500)) = tok :: rest
          ∧ greetings.contains tok = true)
    ∧ (∀ tok rest, pySplit (pyLower (pyTake text 500)) = tok :: rest →
        greetings.contains tok = true →
        handle_message env false chat name text now conv bot
          = ⟨⟨now, conv.busy_shown⟩, bot,
              Outcome.greetingReply (smart_welcome env name
                (detect_language (pyTake text 500)))⟩)
    ∧ (env.complete (smart_welcome_prompt name
          (detect_language (pyTake text 500))) = none →
        smart_welcome env name (detect_language (pyTake text 500))
          = "Message sent ✅") := by
  rw [handle_message_not_spam env chat name text now conv bot hns]
  refine ⟨⟨?_, ?_⟩, ?_, ?_⟩
  · rintro ⟨g, hg⟩
    rcases htoks : pySplit (pyLower (pyTake text 500)) with _ | ⟨tok, rest⟩
    · rw [handle_body_tokenless env chat name text _ bot htoks] at hg
      exact absurd hg (by simp)
    · by_cases hgt : greetings.contains tok = true
      · exact ⟨tok, rest, rfl, hgt⟩
      · rw [handle_body_relay env chat name text _ bot tok rest htoks
          (by simpa using hgt)] at hg
        exact absurd hg (relay_reply_not_greeting _ _ g)
  · rintro ⟨tok, rest, htoks, hgt⟩
    rw [handle_body_greeting env chat name text _ bot tok rest htoks hgt]
    exact ⟨_, rfl⟩
  · intro tok rest htoks hgt
    rw [handle_body_greeting env chat name text _ bot tok rest htoks hgt]
  · intro hc
    unfold smart_welcome ask_gemini
    rw [hc]
    rfl

theorem C3_greeting_classification_witness :
    (¬((2 : ℚ) - ConvState.init.last_time < 6/5))
    ∧ pySplit (pyLower (pyTake "Hlo there" 500)) = ["hlo", "there"]
    ∧ greetings.contains "hlo" = true
    ∧ envRec.complete (smart_welcome_prompt "u"
        (detect_language (pyTake "Hlo there" 500))) = none
    ∧ handle_message envRec false 7 "u" "Hlo there" 2 ConvState.init
        BotData.init
      = ⟨⟨2, false⟩, BotData.init, Outcome.greetingReply "Message sent ✅"⟩ := by
  have hns : ¬((2 : ℚ) - ConvState.init.last_time < 6/5) := by
    norm_num [ConvState.init]
  have h := C3_greeting_classification envRec 7 "u" "Hlo there" 2
    ConvState.init BotData.init hns
  have h2 := h.2.1 "hlo" ["there"] rfl rfl
  have h3 := h.2.2 rfl
  rw [h3] at h2
  exact ⟨hns, rfl, rfl, rfl, h2⟩

/-- C4 counterexample: with the operator away in steady state, the
message "hello world" IS treated as a greeting by the code (its first
token "hello" is in the vocabulary, bot.py:227 matches on
`text.lower().split()[0]`): the sender gets a generated greeting (here
the fallback), nothing is recorded in the correlation map, and no busy
notice is produced — contradicting the claim that it is forwarded with a
RelayRecord and answered by the busy notice. -/
theorem C4_hello_world_counterexample :
    (handle_message envRec false 7 "u" "hello world" 2 ConvState.init
        BotData.init).out = Outcome.greetingReply "Message sent ✅"
    ∧ (handle_message envRec false 7 "u" "hello world" 2 ConvState.init
        BotData.init).bot.forwarded_map = []
    ∧ (handle_message envRec false 7 "u" "hello world" 2 ConvState.init
        BotData.init).out ≠ Outcome.busyNotice := by
  rw [handle_message_not_spam envRec 7 "u" "hello world" 2 ConvState.init
    BotData.init (by norm_num [ConvState.init])]
  exact ⟨rfl, rfl, by decide⟩

/-- C4 amended: for every user and every state (in particular: operator
away, steady state, several distinct users), a non-rate-limited message
"hello world" takes the greeting path: the reply is the generated
greeting for english, it is never forwarded, and no correlation-map
entry and no busy notice is created. -/
theorem C4_hello_world_is_greeting (env : Env) (chat : ChatId)
    (name : String) (now : ℚ) (conv : ConvState) (bot : BotData)
    (hns : ¬(now - conv.last_time < 6/5)) :
    handle_message env false chat name "hello world" now conv bot
      = ⟨⟨now, conv.busy_shown⟩, bot,
          Outcome.greetingReply (smart_welcome env name "english")⟩ := by
  rw [handle_message_not_spam env chat name "hello world" now conv bot hns,
    handle_body_greeting env chat name "hello world" _ bot "hello"
      ["world"] rfl rfl]
  rfl

theorem C4_hello_world_is_greeting_witness :
    (¬((2 : ℚ) - ConvState.init.last_time < 6/5))
    ∧ handle_message envRec false 7 "u" "hello world" 2 ConvState.init
        BotData.init
      = ⟨⟨2, false⟩, BotData.init,
          Outcome.greetingReply (smart_welcome envRec "u" "english")⟩ := by
  have hns : ¬((2 : ℚ) - ConvState.init.last_time < 6/5) := by
    norm_num [ConvState.init]
  exact ⟨hns, C4_hello_world_is_greeting envRec 7 "u" 2 ConvState.init
    BotData.init hns⟩

/-- C6: with the operator away (steady state, no pending transition), a
conversation's first non-greeting message yields the durable busy notice
and sets `busy_shown`; each later one yields only the ephemeral
acknowledgement; and when the operator is available the flag is neither
consulted nor changed. -/
theorem C6_first_contact (env : Env) (chat : ChatId) (name text : String)
    (now : ℚ) (conv : ConvState) (bot : BotData) (tok : String)
    (rest : List String)
    (hns : ¬(now - conv.last_time < 6/5))
    (htoks : pySplit (pyLower (pyTake text 500)) = tok :: rest)
    (hng : greetings.contains tok = false)
    (hpend : bot.admin_status_changed = none) :
    (bot.admin_available = false → conv.busy_shown = false →
        (handle_message env false chat name text now conv bot).out
            = Outcome.busyNotice
        ∧ (handle_message env false chat name text now conv
            bot).conv.busy_shown = true)
    ∧ (bot.admin_available = false → conv.busy_shown = true →
        (handle_message env false chat name text now conv bot).out
            = Outcome.sentTemp
        ∧ (handle_message env false chat name text now conv
            bot).conv.busy_shown = true)
    ∧ (bot.admin_available = true →
        (handle_message env false chat name text now conv bot).out
            = Outcome.sentTemp
        ∧ (handle_message env false chat name text now conv
            bot).conv.busy_shown = conv.busy_shown) := by
  rw [handle_message_not_spam env chat name text now conv bot hns,
    handle_body_relay env chat name text _ bot tok rest htoks hng]
  have hpend' : (forward_record env chat bot).admin_status_changed = none := by
    unfold forward_record
    cases env.forward_ok <;> simp [hpend]
  have hav : (forward_record env chat bot).admin_available
      = bot.admin_available := by
    unfold forward_record
    cases env.forward_ok <;> simp
  refine ⟨fun h1 h2 => ?_, fun h1 h2 => ?_, fun h1 => ?_⟩ <;>
    rcases hfr : forward_record env chat bot with ⟨av, sc, mp⟩ <;>
      rw [hfr] at hpend' hav <;>
        simp only at hpend' hav <;>
          subst hpend' <;>
            simp [relay_reply, hav, h1, *]

theorem C6_first_contact_witness :
    (¬((2 : ℚ) - ConvState.init.last_time < 6/5))
    ∧ pySplit (pyLower (pyTake "need help" 500)) = ["need", "help"]
    ∧ greetings.contains "need" = false
    ∧ BotData.init.admin_status_changed = none
    ∧ BotData.init.admin_available = false
    ∧ ConvState.init.busy_shown = false
    ∧ (handle_message envRec false 7 "u" "need help" 2 ConvState.init
        BotData.init).out = Outcome.busyNotice
    ∧ (handle_message envRec false 7 "u" "need help" 2 ConvState.init
        BotData.init).conv.busy_shown = true := by
  have hns : ¬((2 : ℚ) - ConvState.init.last_time < 6/5) := by
    norm_num [ConvState.init]
  have h := (C6_first_contact envRec 7 "u" "need help" 2 ConvState.init
    BotData.init "need" ["help"] hns rfl rfl rfl).1 rfl rfl
  exact ⟨hns, rfl, rfl, rfl, rfl, rfl, h.1, h.2⟩

/-- A global state with the operator away and a pending away
transition, all conversations fresh. -/
def s0 : GState :=
  ⟨⟨false, some PendingT.became_away, []⟩, fun _ => ConvState.init⟩

/-- C5: the pending-transition flag is one-shot.  Starting from any
state with a pending transition, at most one message of any run of user
messages observes a transition notice; and once the flag is `None`, any
further run of user messages observes no transition notice and leaves
the flag `None` (user messages never re-arm it) — only the explicit
`available`/`away` operator commands set it again. -/
theorem C5_pending_one_shot (s : GState) (ms ms' : List UserMsg)
    (bot2 : BotData) (h : s.bot.admin_status_changed ≠ none) :
    (((runUsers s ms).2.filter Outcome.isTransitionNotice).length ≤ 1)
    ∧ ((runUsers s ms).1.bot.admin_status_changed = none →
        ((runUsers (runUsers s ms).1 ms').2.filter
            Outcome.isTransitionNotice).length = 0
        ∧ (runUsers (runUsers s ms).1 ms').1.bot.admin_status_changed
            = none)
    ∧ (available_cmd true bot2).1.admin_status_changed
        = some PendingT.became_available
    ∧ (away_cmd true bot2).1.admin_status_changed
        = some PendingT.became_away := by
  refine ⟨(runUsers_pending s ms).2,
    fun h0 => (runUsers_pending (runUsers s ms).1 ms').1 h0, rfl, rfl⟩

theorem C5_pending_one_shot_witness :
    s0.bot.admin_status_changed ≠ none
    ∧ ((runUsers s0 [⟨7, "u", "need help", 2, envRec⟩]).2.filter
        Outcome.isTransitionNotice).length ≤ 1
    ∧ ((runUsers (runUsers s0 [⟨7, "u", "need help", 2, envRec⟩]).1
          [⟨8, "v", "also text", 4, envRec⟩]).2.filter
        Outcome.isTransitionNotice).length = 0
    ∧ (runUsers (runUsers s0 [⟨7, "u", "need help", 2, envRec⟩]).1
          [⟨8, "v", "also text", 4, envRec⟩]).1.bot.admin_status_changed
        = none
    ∧ (available_cmd true BotData.init).1.admin_status_changed
        = some PendingT.became_available := by
  have hne : s0.bot.admin_status_changed ≠ none := by simp [s0]
  have e : handle_message envRec false 7 "u" "need help" 2 ConvState.init
      (⟨false, some PendingT.became_away, []⟩ : BotData)
      = ⟨⟨2, false⟩, ⟨false, none, [(41, 7)]⟩, Outcome.awayNotice⟩ := by
    rw [handle_message_not_spam envRec 7 "u" "need help" 2 ConvState.init
      _ (by norm_num [ConvState.init])]
    rfl
  have hp : (runUsers s0
      [⟨7, "u", "need help", 2, envRec⟩]).1.bot.admin_status_changed
      = none := by
    show (handle_message envRec false 7 "u" "need help" 2 (s0.convs 7)
        s0.bot).bot.admin_status_changed = none
    rw [show s0.convs 7 = ConvState.init from rfl,
      show s0.bot = (⟨false, some PendingT.became_away, []⟩ : BotData)
        from rfl, e]
  have h := C5_pending_one_shot s0 [⟨7, "u", "need help", 2, envRec⟩]
    [⟨8, "v", "also text", 4, envRec⟩] BotData.init hne
  exact ⟨hne, h.1, (h.2.1 hp).1, (h.2.1 hp).2, h.2.2.1⟩

end FixedBot
